import Mathlib

/-!
Shallow embedding of the OmniChat backend (src/backend/server.py).

Timestamps are modelled as natural numbers; every call to
`datetime.now(timezone.utc)` in the Python code becomes an explicit `Nat`
parameter of the corresponding Lean function, so that the two distinct
`now()` calls made during one request (one when the `Message` object is
constructed, one when the conversation summary is updated) are two distinct
parameters.  Message/preview contents are `List Char`.  Failures of the
storage and broadcast collaborators (`insert_one`, `update_one`,
`sio.emit` raising) are modelled by boolean flags in a `FailureEnv`;
an exception aborts the rest of the handler body exactly as in Python.
-/

namespace OmniChat

/-- A socket connection identifier (socketio `sid`). -/
abbrev SID := String

/-- Embedding of the pydantic `Message` model (server.py lines 54-61). -/
structure Message where
  id : String
  sender_id : String
  sender_username : String
  content : List Char
  message_type : String
  timestamp : Nat
  conversation_id : String
deriving Repr, DecidableEq

/-- Embedding of the pydantic `MessageCreate` model (server.py lines 63-68). -/
structure MessageCreate where
  content : List Char
  sender_id : String
  sender_username : String
  conversation_id : String
  message_type : String
deriving Repr, DecidableEq

/-- Embedding of the pydantic `Conversation` model (server.py lines 70-76). -/
structure Conversation where
  id : String
  name : String
  participants : List String
  created_at : Nat
  last_message : Option (List Char)
  last_activity : Nat
deriving Repr, DecidableEq

/-- Embedding of the pydantic `User` model (server.py lines 41-47). -/
structure User where
  id : String
  username : String
  email : String
  status : String
deriving Repr, DecidableEq

/-- The durable document store: collections `users`, `conversations`,
`messages` of the MongoDB database. -/
structure DBState where
  users : List User
  conversations : List Conversation
  messages : List Message
deriving Repr, DecidableEq

/-- Payload of a socket.io event emitted by the server. -/
inductive Payload where
  | newMessage (m : Message)
  | userTyping (user_id : Option String) (username : Option String) (typing : Bool)
  | userStatusChanged (user_id : String) (status : String)
deriving Repr, DecidableEq

/-- Addressing of an emitted event: room-scoped (with an optional
`skip_sid`) or global (no `room=` argument to `sio.emit`). -/
inductive EmitTarget where
  | room (conversation_id : String) (skip : Option SID)
  | global
deriving Repr, DecidableEq

/-- One `sio.emit(...)` call performed by a handler. -/
structure Emit where
  event : String
  payload : Payload
  target : EmitTarget
deriving Repr, DecidableEq

/-- Room membership as maintained by socket.io (`enter_room`/`leave_room`):
an association list from conversation id to the member sids. -/
abbrev Registry := List (String × List SID)

/-- Members of a room (first association-list entry for the room id). -/
def membersOf (reg : Registry) (room : String) : List SID :=
  match reg with
  | [] => []
  | (r, ms) :: rest => if r = room then ms else membersOf rest room

/-- Connections a single emitted event is delivered to, given the room
registry and the list of all connected sids (for global emits).
A room-scoped emit with `skip_sid` excludes that sid. -/
def recipients (reg : Registry) (allSids : List SID) (e : Emit) : List SID :=
  match e.target with
  | .room cid skip => (membersOf reg cid).filter (fun s => !(decide (some s = skip)))
  | .global => allSids

/-- Which collaborator calls succeed during one request: `insert_one`,
`update_one` on conversations, and `sio.emit`.  A `false` flag means the
corresponding awaited call raises. -/
structure FailureEnv where
  insertOk : Bool
  updateOk : Bool
  emitOk : Bool
deriving Repr, DecidableEq

/-- The environment in which every collaborator call succeeds. -/
def okEnv : FailureEnv := ⟨true, true, true⟩

/-- The ellipsis marker `"..."` appended to truncated previews
(server.py line 153). -/
def ellipsis : List Char := ['.', '.', '.']

/-- The `"AI: "` tag prepended to the conversation preview in the AI path
(server.py line 186). -/
def aiTag : List Char := ['A', 'I', ':', ' ']

/-- The preview computed for `last_message` (server.py line 153):
`content[:50] + "..." if len(content) > 50 else content`. -/
def preview (content : List Char) : List Char :=
  if content.length > 50 then content.take 50 ++ ellipsis else content

/-- Mongo `update_one` on the conversations collection with filter
`{"id": cid}` and `$set {last_message, last_activity}`: updates the first
matching document only (server.py lines 150-156 and 183-189). -/
def updateConversationSummary (convs : List Conversation) (cid : String)
    (lm : List Char) (la : Nat) : List Conversation :=
  match convs with
  | [] => []
  | c :: rest =>
    if c.id = cid then { c with last_message := some lm, last_activity := la } :: rest
    else c :: updateConversationSummary rest cid lm la

/-- Mongo `update_one` on the users collection with filter `{"id": uid}`
and `$set {status}` (server.py lines 119-122): updates the first matching
document only. -/
def updateUserStatus (users : List User) (uid status : String) : List User :=
  match users with
  | [] => []
  | u :: rest =>
    if u.id = uid then { u with status := status } :: rest
    else u :: updateUserStatus rest uid status

/-- The `Message(**msg_data.dict())` construction in `create_message`
(server.py line 145): fields copied from the request, fresh id, and the
timestamp default factory `datetime.now(timezone.utc)`. -/
def mkMessage (md : MessageCreate) (newId : String) (tMsg : Nat) : Message :=
  { id := newId
    sender_id := md.sender_id
    sender_username := md.sender_username
    content := md.content
    message_type := md.message_type
    timestamp := tMsg
    conversation_id := md.conversation_id }

/-- Embedding of `POST /api/messages` (`create_message`, server.py lines
143-160).  `tMsg` is the `now()` taken when the `Message` object is built,
`tUpd` the `now()` taken inside the summary update.  Returns the state
after the steps that ran, the emits that were performed, and either the
persisted message or the exception (`Except.error`) that escaped the
handler. -/
def create_message (st : DBState) (md : MessageCreate) (newId : String)
    (tMsg tUpd : Nat) (env : FailureEnv) :
    DBState × List Emit × Except String Message :=
  let message := mkMessage md newId tMsg
  if !env.insertOk then (st, [], .error "StorageError")
  else
    let st1 := { st with messages := st.messages ++ [message] }
    if !env.updateOk then (st1, [], .error "StorageError")
    else
      let st2 := { st1 with
        conversations :=
          updateConversationSummary st1.conversations md.conversation_id
            (preview md.content) tUpd }
      if !env.emitOk then (st2, [], .error "EmitError")
      else
        (st2,
         [⟨"new_message", .newMessage message, .room md.conversation_id none⟩],
         .ok message)

/-- Value returned by `POST /api/ai/chat`: either the persisted AI message
or the success-shaped dict `{"error": "AI response failed"}` produced by
the `except` clause.  There is no failure-status constructor: the handler
catches every exception and returns normally. -/
inductive AIChatResponse where
  | message (m : Message)
  | errorPayload (error : String)
deriving Repr, DecidableEq

/-- The AI message constructed in `ai_chat_response` (server.py lines
171-177). -/
def mkAIMessage (text : List Char) (cid : String) (newId : String)
    (tMsg : Nat) : Message :=
  { id := newId
    sender_id := "ai-assistant"
    sender_username := "AI Assistant"
    content := text
    message_type := "ai_response"
    timestamp := tMsg
    conversation_id := cid }

/-- Embedding of `POST /api/ai/chat` (`ai_chat_response`, server.py lines
162-197).  `aiResult` is the outcome of `ai_chat.send_message`: `none`
when the external generation call raises, `some text` on success.  The
whole body runs inside `try/except`, so any failing step yields the
error payload, keeping the state reached so far. -/
def ai_chat_response (st : DBState) (md : MessageCreate)
    (aiResult : Option (List Char)) (newId : String) (tMsg tUpd : Nat)
    (env : FailureEnv) : DBState × List Emit × AIChatResponse :=
  match aiResult with
  | none => (st, [], .errorPayload "AI response failed")
  | some text =>
    let ai_msg := mkAIMessage text md.conversation_id newId tMsg
    if !env.insertOk then (st, [], .errorPayload "AI response failed")
    else
      let st1 := { st with messages := st.messages ++ [ai_msg] }
      if !env.updateOk then (st1, [], .errorPayload "AI response failed")
      else
        let st2 := { st1 with
          conversations :=
            updateConversationSummary st1.conversations md.conversation_id
              (aiTag ++ preview text) tUpd }
        if !env.emitOk then (st2, [], .errorPayload "AI response failed")
        else
          (st2,
           [⟨"new_message", .newMessage ai_msg, .room md.conversation_id none⟩],
           .message ai_msg)

/-- Embedding of `PUT /api/users/{user_id}/status` (`update_user_status`,
server.py lines 117-124): unconditionally `update_one` then a global
`user_status_changed` emit, returning `{"success": True}` (modelled by
the `Bool` component). -/
def update_user_status (st : DBState) (uid status : String) :
    DBState × List Emit × Bool :=
  ({ st with users := updateUserStatus st.users uid status },
   [⟨"user_status_changed", .userStatusChanged uid status, .global⟩],
   true)

/-- Embedding of the `typing_start` socket handler (server.py lines
221-231).  `data.get` results are `Option`s; the Python truthiness test
`if conversation_id:` fails for both `None` and the empty string.  The
handler touches no collection, so the store passes through unchanged. -/
def typing_start (st : DBState) (sid : SID) (conversation_id : Option String)
    (user_id username : Option String) : DBState × List Emit :=
  match conversation_id with
  | none => (st, [])
  | some cid =>
    if cid = "" then (st, [])
    else
      (st,
       [⟨"user_typing", .userTyping user_id username true,
         .room cid (some sid)⟩])

/-- One accepted submission through `POST /api/messages`: the request
body together with the fresh id and the two `now()` readings taken while
it is handled. -/
structure Submission where
  msg_data : MessageCreate
  newId : String
  tMsg : Nat
  tUpd : Nat
deriving Repr, DecidableEq

/-- Run a sequence of accepted message submissions (all collaborator
calls succeed) through `create_message`, threading the store state. -/
def runSubmissions (st : DBState) (subs : List Submission) : DBState :=
  match subs with
  | [] => st
  | s :: rest =>
    runSubmissions (create_message st s.msg_data s.newId s.tMsg s.tUpd okEnv).1 rest

/-- Wall-clock monotonicity of the `now()` readings across a sequence of
submissions, starting from lower bound `t`: within each request the
message timestamp precedes the summary-update timestamp, and requests do
not overlap backwards in time. -/
def ClockOk (t : Nat) : List Submission → Bool
  | [] => true
  | s :: rest => decide (t ≤ s.tMsg) && decide (s.tMsg ≤ s.tUpd) && ClockOk s.tUpd rest

/-- Every conversation's `last_activity` in the store is at most `t`. -/
def laBound (st : DBState) (t : Nat) : Bool :=
  st.conversations.all (fun c => decide (c.last_activity ≤ t))

/-- The final wall-clock lower bound after a sequence of submissions. -/
def finalClock (t : Nat) : List Submission → Nat
  | [] => t
  | s :: rest => finalClock s.tUpd rest

/-- Relation between a conversation record before and after some pipeline
steps: same id, `last_activity` did not decrease. -/
def convRel (c c' : Conversation) : Prop :=
  c.id = c'.id ∧ c.last_activity ≤ c'.last_activity

/-- Concrete conversation used in concrete evaluations. -/
def cexConv : Conversation :=
  { id := "c1", name := "room", participants := [], created_at := 0,
    last_message := none, last_activity := 0 }

/-- Concrete store holding just `cexConv`. -/
def cexSt : DBState := { users := [], conversations := [cexConv], messages := [] }

/-- Concrete message-creation request addressed to conversation `"c1"`. -/
def cexMd : MessageCreate :=
  { content := ['h', 'i'], sender_id := "u1", sender_username := "alice",
    conversation_id := "c1", message_type := "text" }

theorem updateSummary_step (convs : List Conversation) (cid : String)
    (lm : List Char) (la t : Nat)
    (hb : ∀ c ∈ convs, c.last_activity ≤ t) (hla : t ≤ la) :
    List.Forall₂ convRel convs (updateConversationSummary convs cid lm la) ∧
    ∀ c ∈ updateConversationSummary convs cid lm la, c.last_activity ≤ la := by
  induction convs with
  | nil => exact ⟨List.Forall₂.nil, by intro c hc; cases hc⟩
  | cons c rest ih =>
    have hc := hb c (List.mem_cons_self _ _)
    have hrest : ∀ x ∈ rest, x.last_activity ≤ t := fun x hx =>
      hb x (List.mem_cons_of_mem _ hx)
    obtain ⟨ih1, ih2⟩ := ih hrest
    by_cases h : c.id = cid
    · simp only [updateConversationSummary, if_pos h]
      refine ⟨List.Forall₂.cons ⟨rfl, hc.trans hla⟩ ?_, ?_⟩
      · rw [List.forall₂_same]; intro x _; exact ⟨rfl, le_rfl⟩
      · intro x hx
        rcases List.mem_cons.mp hx with h1 | h1
        · subst h1; exact le_rfl
        · exact (hrest x h1).trans hla
    · simp only [updateConversationSummary, if_neg h]
      refine ⟨List.Forall₂.cons ⟨rfl, le_rfl⟩ ih1, ?_⟩
      intro x hx
      rcases List.mem_cons.mp hx with h1 | h1
      · subst h1; exact hc.trans hla
      · exact ih2 x h1

theorem updateSummary_mem (convs : List Conversation) (cid : String)
    (lm : List Char) (la : Nat) :
    ∀ c ∈ updateConversationSummary convs cid lm la,
      c ∈ convs ∨ c.last_activity = la := by
  induction convs with
  | nil => intro c hc; cases hc
  | cons a rest ih =>
    intro c hc
    by_cases h : a.id = cid
    · simp only [updateConversationSummary, if_pos h] at hc
      rcases List.mem_cons.mp hc with h1 | h1
      · right; subst h1; rfl
      · left; exact List.mem_cons_of_mem _ h1
    · simp only [updateConversationSummary, if_neg h] at hc
      rcases List.mem_cons.mp hc with h1 | h1
      · left; subst h1; exact List.mem_cons_self _ _
      · rcases ih c h1 with h2 | h2
        · left; exact List.mem_cons_of_mem _ h2
        · right; exact h2

theorem forall₂_convRel_trans {l1 l2 l3 : List Conversation}
    (h12 : List.Forall₂ convRel l1 l2) (h23 : List.Forall₂ convRel l2 l3) :
    List.Forall₂ convRel l1 l3 := by
  induction h12 generalizing l3 with
  | nil => cases h23; exact List.Forall₂.nil
  | cons hR hT ih =>
    cases h23 with
    | cons hR' hT' =>
      exact List.Forall₂.cons ⟨hR.1.trans hR'.1, hR.2.trans hR'.2⟩ (ih hT')

theorem clockOk_steps (t : Nat) (subs : List Submission)
    (h : ClockOk t subs = true) : ∀ s ∈ subs, s.tMsg ≤ s.tUpd := by
  induction subs generalizing t with
  | nil => intro s hs; cases hs
  | cons a rest ih =>
    simp only [ClockOk, Bool.and_eq_true, decide_eq_true_eq] at h
    intro s hs
    rcases List.mem_cons.mp hs with h1 | h1
    · subst h1; exact h.1.2
    · exact ih a.tUpd h.2 s h1

theorem runSubmissions_mono (subs : List Submission) (st : DBState) (t : Nat)
    (hclock : ClockOk t subs = true)
    (hbound : ∀ c ∈ st.conversations, c.last_activity ≤ t) :
    List.Forall₂ convRel st.conversations (runSubmissions st subs).conversations ∧
    ∀ c ∈ (runSubmissions st subs).conversations,
      c.last_activity ≤ finalClock t subs := by
  induction subs generalizing st t with
  | nil =>
    refine ⟨?_, fun c hc => hbound c hc⟩
    simp only [runSubmissions]
    rw [List.forall₂_same]; intro x _; exact ⟨rfl, le_rfl⟩
  | cons s rest ih =>
    simp only [ClockOk, Bool.and_eq_true, decide_eq_true_eq] at hclock
    obtain ⟨⟨h1, h2⟩, h3⟩ := hclock
    have hstep := updateSummary_step st.conversations s.msg_data.conversation_id
      (preview s.msg_data.content) s.tUpd t hbound (h1.trans h2)
    have hconv : (create_message st s.msg_data s.newId s.tMsg s.tUpd okEnv).1.conversations
        = updateConversationSummary st.conversations s.msg_data.conversation_id
            (preview s.msg_data.content) s.tUpd := rfl
    have ihres := ih (create_message st s.msg_data s.newId s.tMsg s.tUpd okEnv).1 s.tUpd h3
      (by rw [hconv]; exact hstep.2)
    refine ⟨?_, ?_⟩
    · have hf := hstep.1
      rw [← hconv] at hf
      exact forall₂_convRel_trans hf ihres.1
    · simpa only [runSubmissions, finalClock] using ihres.2

/-- C1 is refuted as stated: after an accepted submission whose two
`now()` readings differ (message constructed at time 1, summary updated
at time 2 — a clock-monotone run), the persisted message's timestamp is 1
while the conversation's `last_activity` is 2, so `last_activity` does
NOT equal the timestamp of the most recently persisted message. -/
theorem c1_counterexample :
    ClockOk 0 [⟨cexMd, "m1", 1, 2⟩] = true ∧
    (runSubmissions cexSt [⟨cexMd, "m1", 1, 2⟩]).messages
      = [mkMessage cexMd "m1" 1] ∧
    (mkMessage cexMd "m1" 1).timestamp = 1 ∧
    ∀ c ∈ (runSubmissions cexSt [⟨cexMd, "m1", 1, 2⟩]).conversations,
      c.last_activity ≠ 1 := by decide

/-- C1 (amended): across any clock-monotone sequence of accepted
submissions, every conversation's `last_activity` is monotonically
non-decreasing; each accepted submission persists a message stamped with
the first `now()` reading (`tMsg`) and sets the updated conversation's
`last_activity` to the second, later `now()` reading (`tUpd ≥ tMsg`)
taken during the summary update — not to the persisted message's own
timestamp. -/
theorem c1_amended_last_activity (st : DBState) (t : Nat)
    (subs : List Submission) (hclock : ClockOk t subs = true)
    (hbound : laBound st t = true) :
    List.Forall₂ convRel st.conversations (runSubmissions st subs).conversations ∧
    (∀ s ∈ subs, s.tMsg ≤ s.tUpd) ∧
    ∀ s ∈ subs, ∀ st₀ : DBState,
      (create_message st₀ s.msg_data s.newId s.tMsg s.tUpd okEnv).2.2
        = Except.ok (mkMessage s.msg_data s.newId s.tMsg) ∧
      (mkMessage s.msg_data s.newId s.tMsg).timestamp = s.tMsg ∧
      ∀ c ∈ (create_message st₀ s.msg_data s.newId s.tMsg s.tUpd okEnv).1.conversations,
        c ∈ st₀.conversations ∨ c.last_activity = s.tUpd := by
  have hbound' : ∀ c ∈ st.conversations, c.last_activity ≤ t := by
    intro c hc
    have := (List.all_eq_true.mp hbound) c hc
    exact of_decide_eq_true this
  refine ⟨(runSubmissions_mono subs st t hclock hbound').1, clockOk_steps t subs hclock, ?_⟩
  intro s _ st₀
  refine ⟨rfl, rfl, ?_⟩
  intro c hc
  exact updateSummary_mem st₀.conversations s.msg_data.conversation_id
    (preview s.msg_data.content) s.tUpd c hc

/-- Concrete instantiation of the amended C1 theorem on a one-submission
run over `cexSt`. -/
theorem c1_amended_last_activity_witness :
    List.Forall₂ convRel cexSt.conversations
      (runSubmissions cexSt [⟨cexMd, "m1", 1, 2⟩]).conversations :=
  (c1_amended_last_activity cexSt 0 [⟨cexMd, "m1", 1, 2⟩]
    (by decide) (by decide)).1

/-- Concrete message-creation request whose sender fields coincide with
the constants the AI path uses. -/
def cexAIMd : MessageCreate :=
  { content := ['h', 'i'], sender_id := "ai-assistant",
    sender_username := "AI Assistant", conversation_id := "c1",
    message_type := "ai_response" }

/-- C2 is refuted as stated: for equal content `"hi"` the two paths
persist the same record and perform the same broadcast, but the resulting
conversation summaries differ — the AI path's preview is `"AI: hi"`, the
human path's is `"hi"`, so the preview rule is special-cased for AI
messages. -/
theorem c2_counterexample :
    (create_message cexSt cexAIMd "m1" 1 2 okEnv).1.messages
      = (ai_chat_response cexSt cexAIMd (some ['h', 'i']) "m1" 1 2 okEnv).1.messages ∧
    (create_message cexSt cexAIMd "m1" 1 2 okEnv).2.1
      = (ai_chat_response cexSt cexAIMd (some ['h', 'i']) "m1" 1 2 okEnv).2.1 ∧
    (create_message cexSt cexAIMd "m1" 1 2 okEnv).1.conversations
      ≠ (ai_chat_response cexSt cexAIMd (some ['h', 'i']) "m1" 1 2 okEnv).1.conversations := by
  decide

/-- C2 (amended): when the draft carries the AI sender constants and the
same content, both paths persist the identical record and perform the
identical `new_message` broadcast; the only divergence is the summary
preview, which the AI path builds as `"AI: "` prepended to the common
preview rule. -/
theorem c2_amended_pipeline (st : DBState) (md : MessageCreate)
    (text : List Char) (newId : String) (tMsg tUpd : Nat)
    (h1 : md.content = text) (h2 : md.sender_id = "ai-assistant")
    (h3 : md.sender_username = "AI Assistant")
    (h4 : md.message_type = "ai_response") :
    (create_message st md newId tMsg tUpd okEnv).1.messages
      = (ai_chat_response st md (some text) newId tMsg tUpd okEnv).1.messages ∧
    (create_message st md newId tMsg tUpd okEnv).2.1
      = (ai_chat_response st md (some text) newId tMsg tUpd okEnv).2.1 ∧
    (create_message st md newId tMsg tUpd okEnv).1.conversations
      = updateConversationSummary st.conversations md.conversation_id
          (preview md.content) tUpd ∧
    (ai_chat_response st md (some text) newId tMsg tUpd okEnv).1.conversations
      = updateConversationSummary st.conversations md.conversation_id
          (aiTag ++ preview text) tUpd := by
  have hm : mkMessage md newId tMsg = mkAIMessage text md.conversation_id newId tMsg := by
    simp [mkMessage, mkAIMessage, h1, h2, h3, h4]
  refine ⟨?_, ?_, rfl, rfl⟩
  · exact congrArg (fun m => st.messages ++ [m]) hm
  · exact congrArg
      (fun m => [Emit.mk "new_message" (Payload.newMessage m)
        (EmitTarget.room md.conversation_id none)]) hm

/-- Concrete application of the amended C2 theorem at content `"hi"`. -/
theorem c2_amended_pipeline_witness :
    (create_message cexSt cexAIMd "m1" 1 2 okEnv).1.messages
      = (ai_chat_response cexSt cexAIMd (some ['h', 'i']) "m1" 1 2 okEnv).1.messages :=
  (c2_amended_pipeline cexSt cexAIMd ['h', 'i'] "m1" 1 2 rfl rfl rfl rfl).1

/-- C3: if the external AI generation call fails, the store and the emit
log are untouched; if it succeeds and the insert succeeds, exactly one
message is appended, carrying sender id `"ai-assistant"`, sender name
`"AI Assistant"` and type `"ai_response"`. -/
theorem c3_ai_failure_success (st : DBState) (md : MessageCreate)
    (newId : String) (tMsg tUpd : Nat) (env : FailureEnv) :
    ai_chat_response st md none newId tMsg tUpd env
      = (st, [], .errorPayload "AI response failed") ∧
    ∀ text : List Char, env.insertOk = true →
      (ai_chat_response st md (some text) newId tMsg tUpd env).1.messages
        = st.messages ++ [mkAIMessage text md.conversation_id newId tMsg] ∧
      (mkAIMessage text md.conversation_id newId tMsg).sender_id = "ai-assistant" ∧
      (mkAIMessage text md.conversation_id newId tMsg).sender_username = "AI Assistant" ∧
      (mkAIMessage text md.conversation_id newId tMsg).message_type = "ai_response" := by
  constructor
  · rfl
  · intro text hins
    rcases env with ⟨i, u, e⟩
    cases hins
    cases u <;> cases e <;> exact ⟨rfl, rfl, rfl, rfl⟩

/-- Concrete application of the C3 theorem on a successful generation. -/
theorem c3_ai_failure_success_witness :
    (ai_chat_response cexSt cexMd (some ['o', 'k']) "m1" 1 2 okEnv).1.messages
      = cexSt.messages ++ [mkAIMessage ['o', 'k'] cexMd.conversation_id "m1" 1] :=
  ((c3_ai_failure_success cexSt cexMd "m1" 1 2 okEnv).2 ['o', 'k'] rfl).1

/-- C4: a failing message insert aborts the submission with an error,
leaving the store untouched and emitting nothing; and whenever any
broadcast was emitted, the durable append had already succeeded and the
broadcast is the single `new_message` event. -/
theorem c4_persist_before_broadcast (st : DBState) (md : MessageCreate)
    (newId : String) (tMsg tUpd : Nat) (env : FailureEnv) :
    (env.insertOk = false →
      create_message st md newId tMsg tUpd env = (st, [], .error "StorageError")) ∧
    ((create_message st md newId tMsg tUpd env).2.1 ≠ [] →
      (create_message st md newId tMsg tUpd env).1.messages
        = st.messages ++ [mkMessage md newId tMsg] ∧
      (create_message st md newId tMsg tUpd env).2.1
        = [⟨"new_message", .newMessage (mkMessage md newId tMsg),
            .room md.conversation_id none⟩]) := by
  rcases env with ⟨i, u, e⟩
  cases i <;> cases u <;> cases e <;> refine ⟨?_, ?_⟩ <;> intro h <;>
    first
      | rfl
      | (exact absurd rfl h)
      | (exact ⟨rfl, rfl⟩)
      | simp at h

/-- Concrete application of the C4 theorem when the insert fails. -/
theorem c4_persist_before_broadcast_witness :
    create_message cexSt cexMd "m1" 1 2 ⟨false, true, true⟩
      = (cexSt, [], .error "StorageError") :=
  (c4_persist_before_broadcast cexSt cexMd "m1" 1 2 ⟨false, true, true⟩).1 rfl

/-- C5: for an accepted submission over a single-conversation store, the
persisted message keeps the full untruncated content, while the
conversation's `last_message` is the first 50 characters followed by the
ellipsis marker when the content is longer than 50 characters, and the
content itself otherwise. -/
theorem c5_preview_truncation (st : DBState) (md : MessageCreate)
    (newId : String) (tMsg tUpd : Nat) (c : Conversation)
    (hc : c.id = md.conversation_id) (hst : st.conversations = [c]) :
    (∃ m : Message, (create_message st md newId tMsg tUpd okEnv).2.2 = Except.ok m ∧
       m.content = md.content) ∧
    ∃ c' : Conversation,
      (create_message st md newId tMsg tUpd okEnv).1.conversations = [c'] ∧
      (50 < md.content.length →
        c'.last_message = some (md.content.take 50 ++ ellipsis)) ∧
      (md.content.length ≤ 50 → c'.last_message = some md.content) := by
  refine ⟨⟨mkMessage md newId tMsg, rfl, rfl⟩, ?_⟩
  refine Exists.intro
    ({ c with last_message := some (preview md.content), last_activity := tUpd }) ?_
  refine ⟨?_, ?_, ?_⟩
  · show updateConversationSummary st.conversations md.conversation_id
      (preview md.content) tUpd = _
    rw [hst]
    simp only [updateConversationSummary, if_pos hc]
  · intro h
    simp only [preview, if_pos h]
  · intro h
    have hn : ¬ md.content.length > 50 := not_lt.mpr h
    simp only [preview, if_neg hn]

/-- Concrete message-creation request with 51-character content. -/
def cexLongMd : MessageCreate :=
  { content := List.replicate 51 'a', sender_id := "u1",
    sender_username := "alice", conversation_id := "c1",
    message_type := "text" }

/-- Concrete application of the C5 theorem on 51-character content. -/
theorem c5_preview_truncation_witness :
    (∃ m : Message, (create_message cexSt cexLongMd "m1" 1 2 okEnv).2.2 = Except.ok m ∧
       m.content = cexLongMd.content) ∧
    ∃ c' : Conversation,
      (create_message cexSt cexLongMd "m1" 1 2 okEnv).1.conversations = [c'] ∧
      (50 < cexLongMd.content.length →
        c'.last_message = some (cexLongMd.content.take 50 ++ ellipsis)) ∧
      (cexLongMd.content.length ≤ 50 → c'.last_message = some cexLongMd.content) :=
  c5_preview_truncation cexSt cexLongMd "m1" 1 2 cexConv rfl rfl

/-- Store with no conversations at all. -/
def cexNoConvSt : DBState := { users := [], conversations := [], messages := [] }

/-- C6 is refuted as stated: against a store holding no conversation at
all, a submission addressed to the unknown conversation id `"c1"` is
still persisted, still broadcast, and still returned as a success. -/
theorem c6_counterexample :
    cexNoConvSt.conversations = [] ∧
    (create_message cexNoConvSt cexMd "m1" 1 2 okEnv).1.messages
      = [mkMessage cexMd "m1" 1] ∧
    (create_message cexNoConvSt cexMd "m1" 1 2 okEnv).2.1 ≠ [] ∧
    (create_message cexNoConvSt cexMd "m1" 1 2 okEnv).2.2
      = Except.ok (mkMessage cexMd "m1" 1) :=
  ⟨rfl, rfl, List.cons_ne_nil _ _, rfl⟩

theorem updateSummary_noMatch (convs : List Conversation) (cid : String)
    (lm : List Char) (la : Nat) (h : ∀ c ∈ convs, c.id ≠ cid) :
    updateConversationSummary convs cid lm la = convs := by
  induction convs with
  | nil => rfl
  | cons a rest ih =>
    have ha := h a (List.mem_cons_self _ _)
    simp only [updateConversationSummary, if_neg ha]
    rw [ih (fun c hc => h c (List.mem_cons_of_mem _ hc))]

/-- C6 (amended): the pipeline performs no conversation-existence check:
a submission whose conversation id matches no stored conversation is
persisted, broadcast and returned as a success anyway, and the summary
update is a no-op on the conversations collection. -/
theorem c6_amended_no_existence_check (st : DBState) (md : MessageCreate)
    (newId : String) (tMsg tUpd : Nat)
    (h : ∀ c ∈ st.conversations, c.id ≠ md.conversation_id) :
    (create_message st md newId tMsg tUpd okEnv).1.messages
      = st.messages ++ [mkMessage md newId tMsg] ∧
    (create_message st md newId tMsg tUpd okEnv).1.conversations
      = st.conversations ∧
    (create_message st md newId tMsg tUpd okEnv).2.1
      = [⟨"new_message", .newMessage (mkMessage md newId tMsg),
          .room md.conversation_id none⟩] ∧
    (create_message st md newId tMsg tUpd okEnv).2.2
      = Except.ok (mkMessage md newId tMsg) := by
  refine ⟨rfl, ?_, rfl, rfl⟩
  show updateConversationSummary st.conversations md.conversation_id
    (preview md.content) tUpd = st.conversations
  exact updateSummary_noMatch st.conversations md.conversation_id
    (preview md.content) tUpd h

/-- Concrete application of the amended C6 theorem on the empty store. -/
theorem c6_amended_no_existence_check_witness :
    (create_message cexNoConvSt cexMd "m1" 1 2 okEnv).1.conversations
      = cexNoConvSt.conversations :=
  (c6_amended_no_existence_check cexNoConvSt cexMd "m1" 1 2
    (fun c hc => absurd hc (List.not_mem_nil c))).2.1

/-- C7: when the AI generation call fails, the endpoint returns normally
(the total `AIChatResponse` value, not a raised failure) carrying the
error field `"AI response failed"`, with the store untouched — no
placeholder message is fabricated — and nothing broadcast. -/
theorem c7_error_shaped_response (st : DBState) (md : MessageCreate)
    (newId : String) (tMsg tUpd : Nat) (env : FailureEnv) :
    ai_chat_response st md none newId tMsg tUpd env
      = (st, [], AIChatResponse.errorPayload "AI response failed") := rfl

/-- C8: a `typing_start` event from connection `sid` carrying a (truthy)
conversation id leaves the store untouched and performs exactly one
`user_typing` emit with `typing = true` and the given user id and
username, room-scoped with `skip_sid = sid`; for any registry, its
delivery excludes `sid` and reaches every other member of the room. -/
theorem c8_typing_start (st : DBState) (reg : Registry) (allSids : List SID)
    (sid : SID) (cid : String) (uid uname : String) (hcid : cid ≠ "") :
    typing_start st sid (some cid) (some uid) (some uname)
      = (st, [⟨"user_typing", .userTyping (some uid) (some uname) true,
              .room cid (some sid)⟩]) ∧
    ∀ e ∈ (typing_start st sid (some cid) (some uid) (some uname)).2,
      sid ∉ recipients reg allSids e ∧
      ∀ m ∈ membersOf reg cid, m ≠ sid → m ∈ recipients reg allSids e := by
  have heq : typing_start st sid (some cid) (some uid) (some uname)
      = (st, [⟨"user_typing", .userTyping (some uid) (some uname) true,
              .room cid (some sid)⟩]) := by
    simp only [typing_start, if_neg hcid]
  refine ⟨heq, ?_⟩
  intro e he
  rw [heq] at he
  rcases List.mem_singleton.mp he with rfl
  constructor
  · show sid ∉ (membersOf reg cid).filter (fun s => !(decide (some s = some sid)))
    intro habs
    have := (List.mem_filter.mp habs).2
    simp at this
  · intro m hm hne
    show m ∈ (membersOf reg cid).filter (fun s => !(decide (some s = some sid)))
    refine List.mem_filter.mpr ⟨hm, ?_⟩
    simp [hne]

/-- Concrete application of the C8 theorem: the handler's store/emit
behavior at a concrete connection and room. -/
theorem c8_typing_start_witness :
    typing_start cexSt "s1" (some "c1") (some "u1") (some "alice")
      = (cexSt, [⟨"user_typing", .userTyping (some "u1") (some "alice") true,
                 .room "c1" (some "s1")⟩]) :=
  (c8_typing_start cexSt [("c1", ["s1", "s2"])] ["s1", "s2"] "s1" "c1" "u1" "alice"
    (by decide)).1

/-- C9: in the AI path, when the conversation-summary update (first
conjunct) or the broadcast (second conjunct) raises after the insert
succeeded, the endpoint returns the error payload even though the AI
message is already persisted in the store. -/
theorem c9_error_despite_persist (st : DBState) (md : MessageCreate)
    (text : List Char) (newId : String) (tMsg tUpd : Nat) :
    ((ai_chat_response st md (some text) newId tMsg tUpd ⟨true, false, true⟩).2.2
        = .errorPayload "AI response failed" ∧
     (ai_chat_response st md (some text) newId tMsg tUpd ⟨true, false, true⟩).1.messages
        = st.messages ++ [mkAIMessage text md.conversation_id newId tMsg]) ∧
    ((ai_chat_response st md (some text) newId tMsg tUpd ⟨true, true, false⟩).2.2
        = .errorPayload "AI response failed" ∧
     (ai_chat_response st md (some text) newId tMsg tUpd ⟨true, true, false⟩).1.messages
        = st.messages ++ [mkAIMessage text md.conversation_id newId tMsg]) :=
  ⟨⟨rfl, rfl⟩, ⟨rfl, rfl⟩⟩

theorem updateUserStatus_noMatch (users : List User) (uid s : String)
    (h : ∀ u ∈ users, u.id ≠ uid) : updateUserStatus users uid s = users := by
  induction users with
  | nil => rfl
  | cons a rest ih =>
    have ha := h a (List.mem_cons_self _ _)
    simp only [updateUserStatus, if_neg ha]
    rw [ih (fun u hu => h u (List.mem_cons_of_mem _ hu))]

/-- C10: updating the status of a user id that matches no stored user
still returns `{"success": true}`, leaves the store unchanged, and
performs the global `user_status_changed` emit, delivered to every
connected sid; no error is ever reported for an unknown user id. -/
theorem c10_status_unknown_user (st : DBState) (uid s : String)
    (reg : Registry) (allSids : List SID)
    (h : ∀ u ∈ st.users, u.id ≠ uid) :
    (update_user_status st uid s).2.2 = true ∧
    (update_user_status st uid s).1 = st ∧
    (update_user_status st uid s).2.1
      = [⟨"user_status_changed", .userStatusChanged uid s, .global⟩] ∧
    ∀ e ∈ (update_user_status st uid s).2.1,
      recipients reg allSids e = allSids := by
  refine ⟨rfl, ?_, rfl, ?_⟩
  · show { st with users := updateUserStatus st.users uid s } = st
    rw [updateUserStatus_noMatch st.users uid s h]
  · intro e he
    rcases List.mem_singleton.mp he with rfl
    rfl

/-- Concrete application of the C10 theorem on a store with no users. -/
theorem c10_status_unknown_user_witness :
    (update_user_status cexSt "ghost" "online").1 = cexSt :=
  (c10_status_unknown_user cexSt "ghost" "online" [] []
    (fun u hu => absurd hu (List.not_mem_nil u))).2.1

end OmniChat
